import Mathlib

/-!
# Verification of the allocation reconciliation engine and exec driver

This development embeds, in Lean 4, the components of the repository that the
spec describes: the taint classifier (`filterByTainted`), the terminal policy
(`shouldFilter`), the name-index bitmap sizing (`bitmapFrom`), a per-task-group
reconciler, and the exec task driver's task-store operations.

The scheduler implementations are absent from the repository sources (only
their tests are present), so those definitions are modelled from the spec and
validated against the concrete cases the tests assert.  The exec driver
(`drivers/exec/driver.go`) is embedded from its source.
-/

namespace Nomad

/-- Client status of an allocation (`structs.AllocClientStatus*`). -/
inductive ClientStatus where
  | pending
  | running
  | complete
  | failed
  | lost
deriving DecidableEq, Repr

/-- Desired status of an allocation (`structs.AllocDesiredStatus*`). -/
inductive DesiredStatus where
  | run
  | stop
  | evict
deriving DecidableEq, Repr

/-- Node status (`structs.NodeStatus*`); the spec lists `ready|down|...`. -/
inductive NodeStatus where
  | initializing
  | ready
  | down
deriving DecidableEq, Repr

/-- A cluster node: ID, status, and whether a drain strategy is present. -/
structure Node where
  id : String
  status : NodeStatus
  draining : Bool
deriving DecidableEq, Repr

/-- Per-task execution state (`structs.TaskState`): whether the task has
reached the dead state and whether it failed. -/
structure TaskSt where
  dead : Bool
  failed : Bool
deriving DecidableEq, Repr

/-- An allocation, with the attributes the classification contract reads:
ID, embedded name index, node ID, client status, desired status, the
`DesiredTransition.Migrate` intent, and per-task states. -/
structure Alloc where
  id : String
  nameIndex : Nat
  nodeID : String
  clientStatus : ClientStatus
  desiredStatus : DesiredStatus
  migrate : Bool
  taskStates : List TaskSt
deriving DecidableEq, Repr

/-- An allocation is terminal when its execution has finished, successfully
or not: client status `complete`, `failed`, or `lost`. -/
def terminalStatus (a : Alloc) : Bool :=
  match a.clientStatus with
  | .complete => true
  | .failed => true
  | .lost => true
  | _ => false

/-- Whether any task of the allocation failed (derives the spec's
task-level "Failed" outcome from `TaskStates`). -/
def anyTaskFailed (a : Alloc) : Bool :=
  a.taskStates.any (·.failed)

/-- The node table: an association from node ID to an optional node record.
A missing key, or a `none` entry, is an unresolved node. -/
abbrev NodeTable : Type := List (String × Option Node)

/-- Look a node up in the table; `none` means the node is unresolved
(record missing from the snapshot). -/
def lookupNode (nodes : NodeTable) (nid : String) : Option Node :=
  match nodes with
  | [] => none
  | (k, n) :: rest => if k = nid then n else lookupNode rest nid

/-- A node is tainted when it is missing/unresolved from the snapshot,
its status is down, or it is draining. -/
def nodeTainted (nodes : NodeTable) (nid : String) : Bool :=
  match lookupNode nodes nid with
  | none => true
  | some n => n.status == .down || n.draining

/-- Taint classification category. -/
inductive TaintClass where
  | untainted
  | migrate
  | lost
deriving DecidableEq, Repr

/-- Modelled from the spec: the TaintClassifier's per-allocation rule
(§4.3); the implementation is absent from the sources, only its test
`TestAllocSet_filterByTainted` is present.  Terminal allocations are always
untainted; otherwise, migration intent on a tainted node gives `migrate`;
else a node whose status is down gives `lost`; everything else is
`untainted`. -/
def classifyAlloc (nodes : NodeTable) (a : Alloc) : TaintClass :=
  if terminalStatus a then .untainted
  else if a.migrate && nodeTainted nodes a.nodeID then .migrate
  else
    match lookupNode nodes a.nodeID with
    | some n => if n.status == .down then .lost else .untainted
    | none => .untainted

/-- Modelled from the spec: `filterByTainted` (§4.3) partitions an
allocation set into untainted / migrate / lost by the per-allocation
classification rule. -/
def filterByTainted (allocs : List Alloc) (nodes : NodeTable) :
    List Alloc × List Alloc × List Alloc :=
  (allocs.filter (fun a => classifyAlloc nodes a == .untainted),
   allocs.filter (fun a => classifyAlloc nodes a == .migrate),
   allocs.filter (fun a => classifyAlloc nodes a == .lost))

/-- Modelled from the spec: the TerminalPolicy `shouldFilter` (§4.4 table);
the implementation is absent from the sources, only its test
`TestReconcile_shouldFilter` is present.  Returns `(untainted, ignore)`. -/
def shouldFilter (a : Alloc) (isBatch : Bool) : Bool × Bool :=
  if isBatch then
    match a.desiredStatus with
    | .stop => if anyTaskFailed a then (false, true) else (true, false)
    | .evict => (false, true)
    | .run => if a.clientStatus == .failed then (false, false) else (true, false)
  else
    match a.desiredStatus with
    | .stop => (false, true)
    | .evict => (false, true)
    | .run => if a.clientStatus == .complete then (false, true) else (false, false)

/-- An allocation as built by the `shouldFilter` test: a single task state
in the dead state with the given failed flag. -/
def mkTestAlloc (d : DesiredStatus) (c : ClientStatus) (f : Bool) : Alloc :=
  { id := "a", nameIndex := 0, nodeID := "n", clientStatus := c,
    desiredStatus := d, migrate := false,
    taskStates := [{ dead := true, failed := f }] }

/-- Whether the node with the given ID resolves to a record whose status is
down (an unresolved node is not "down", merely tainted). -/
def nodeDown (nodes : NodeTable) (nid : String) : Bool :=
  match lookupNode nodes nid with
  | some n => n.status == .down
  | none => false

/-! ## NameIndexAllocator bitmap sizing -/

/-- Modelled from the spec: the smallest power of two that is at least `n`
(§4.2's `nextPowerOfTwo`). -/
def nextPow2 (n : Nat) : Nat :=
  2 ^ Nat.clog 2 n

/-- Round `n` up to a multiple of 8 (byte alignment of bitmap storage). -/
def byteAlign (n : Nat) : Nat :=
  if n % 8 = 0 then n else n + (8 - n % 8)

/-- The highest instance index embedded in the allocations' names. -/
def highestIndex (allocs : List Alloc) : Nat :=
  allocs.foldr (fun a m => max a.nameIndex m) 0

/-- A name-index bitmap: its size in bits and the indices marked in use. -/
structure Bitmap where
  size : Nat
  used : List Nat
deriving DecidableEq, Repr

/-- Modelled from the spec: `buildIndex`/`bitmapFrom` (§4.2); the
implementation is absent from the sources, only its test `TestBitmapFrom` is
present.  The size is `nextPowerOfTwo (max minimumCount (highestIndex + 1))`,
byte-aligned; every index already in use is marked occupied. -/
def bitmapFrom (allocs : List Alloc) (minimumCount : Nat) : Bitmap :=
  { size := byteAlign (nextPow2 (max minimumCount (highestIndex allocs + 1))),
    used := allocs.map (·.nameIndex) }

/-! ## Reconciler (per task group)

Modelled from the spec (§4.5): the reconciler implementation is absent from
the sources.  A snapshot holds the job's batch flag, one task group's desired
count, the allocation set, and the node table. -/

/-- An immutable reconciliation snapshot for one task group. -/
structure Snapshot where
  isBatch : Bool
  desired : Nat
  allocs : List Alloc
  nodes : NodeTable
deriving Repr

/-- The terminal allocations of the snapshot (handled by TerminalPolicy). -/
def termOf (s : Snapshot) : List Alloc :=
  s.allocs.filter (fun a => terminalStatus a)

/-- The non-terminal allocations of the snapshot (input of TaintClassifier). -/
def nontermOf (s : Snapshot) : List Alloc :=
  s.allocs.filter (fun a => !terminalStatus a)

/-- Terminal allocations the TerminalPolicy keeps as untainted. -/
def untTermOf (s : Snapshot) : List Alloc :=
  (termOf s).filter (fun a => (shouldFilter a s.isBatch).1)

/-- Terminal allocations the TerminalPolicy ignores. -/
def ignOf (s : Snapshot) : List Alloc :=
  (termOf s).filter (fun a => (shouldFilter a s.isBatch).2)

/-- Non-terminal allocations classified untainted. -/
def untNonTermOf (s : Snapshot) : List Alloc :=
  (nontermOf s).filter (fun a => classifyAlloc s.nodes a == .untainted)

/-- Non-terminal allocations classified migrate. -/
def migrOf (s : Snapshot) : List Alloc :=
  (nontermOf s).filter (fun a => classifyAlloc s.nodes a == .migrate)

/-- Non-terminal allocations classified lost. -/
def lostOf (s : Snapshot) : List Alloc :=
  (nontermOf s).filter (fun a => classifyAlloc s.nodes a == .lost)

/-- `currentCount = |untainted| + |migrate|` (§4.5 step 3): migrating
allocations still count toward desired capacity. -/
def currentOf (s : Snapshot) : Nat :=
  (untTermOf s).length + (untNonTermOf s).length + (migrOf s).length

/-- A reconciliation plan for one task group: how many placements to make,
which allocations to stop, which to migrate, which lost ones to replace, and
which terminal allocations were ignored (informational only). -/
structure Plan where
  place : Nat
  stop : List String
  migrate : List String
  lostReplace : List String
  ignore : List String
deriving DecidableEq, Repr

/-- Modelled from the spec: the Reconciler's per-task-group pass (§4.5).
It classifies the allocations, compares `currentCount` with the desired
count, emits placements for any shortfall, stop intents for any excess
(victims taken from the untainted subset), migrate intents for the migrate
set, replace intents for the lost set, and the ignored IDs. -/
def reconcile (s : Snapshot) : Plan :=
  { place := s.desired - currentOf s,
    stop := (((untTermOf s) ++ (untNonTermOf s)).take (currentOf s - s.desired)).map (·.id),
    migrate := (migrOf s).map (·.id),
    lostReplace := (lostOf s).map (·.id),
    ignore := (ignOf s).map (·.id) }

/-- A freshly placed allocation: running on the given node with desired
status run and no pending transition. -/
def freshAlloc (nid : String) : Alloc :=
  { id := "fresh", nameIndex := 0, nodeID := nid, clientStatus := .running,
    desiredStatus := .run, migrate := false, taskStates := [] }

/-- Modelled from the spec: the downstream plan application (§3 lifecycle,
§4.5 steps 4-6), which is external to the core.  After the plan is applied,
the snapshot reflects it: stop victims are gone, placements and migrate
replacements are fresh running allocations on a healthy node, lost and
superseded allocations are replaced by those placements, and ignored
terminal allocations remain in the store untouched. -/
def applyPlan (s : Snapshot) (nid : String) : Snapshot :=
  { s with allocs :=
      ignOf s
      ++ ((untTermOf s) ++ (untNonTermOf s)).drop (currentOf s - s.desired)
      ++ List.replicate (s.desired - currentOf s + (migrOf s).length) (freshAlloc nid) }

/-! ## Exec driver task store (`drivers/exec/driver.go`) -/

/-- The driver-side view of a task handle: whether `IsRunning()` reports
true and whether the executor plugin client has exited. -/
structure TaskHandle where
  running : Bool
  pluginExited : Bool
deriving DecidableEq, Repr

/-- The in-memory task store mapping task IDs to handles. -/
abbrev TaskStore : Type := List (String × TaskHandle)

/-- `taskStore.Get`. -/
def storeGet (s : TaskStore) (tid : String) : Option TaskHandle :=
  match s with
  | [] => none
  | (k, h) :: rest => if k = tid then some h else storeGet rest tid

/-- `taskStore.Delete`. -/
def storeDelete (s : TaskStore) (tid : String) : TaskStore :=
  s.filter (fun p => !(p.1 == tid))

/-- `taskStore.Set` (overwrites any existing entry). -/
def storeSet (s : TaskStore) (tid : String) (h : TaskHandle) : TaskStore :=
  (tid, h) :: storeDelete s tid

/-- Errors the driver operations return. -/
inductive DriverErr where
  | taskNotFound
  | alreadyStarted
  | cannotDestroyRunning
  | decodeConfigFailed
  | createExecutorFailed
  | launchFailed
  | setDriverStateFailed
  | shutdownFailed
  | signalFailed
  | statsFailed
deriving DecidableEq, Repr

/-- Outcomes of the external collaborators (config decoding, executor
creation and RPCs); the driver's control flow branches on these. -/
structure ExecEnv where
  decodeFails : Bool
  createFails : Bool
  launchFails : Bool
  setStateFails : Bool
  shutdownFails : Bool
  signalFails : Bool
  statsFails : Bool
deriving DecidableEq, Repr

/-- `Driver.WaitTask`: unknown task IDs get `ErrTaskNotFound`; otherwise a
wait channel is handed out.  The store is never modified. -/
def waitTask (store : TaskStore) (tid : String) :
    Except DriverErr Unit × TaskStore :=
  match storeGet store tid with
  | none => (.error .taskNotFound, store)
  | some _ => (.ok (), store)

/-- `Driver.StopTask`: unknown task IDs get `ErrTaskNotFound`; otherwise the
executor is shut down, tolerating a failed shutdown when the plugin already
exited.  The store is never modified. -/
def stopTask (store : TaskStore) (env : ExecEnv) (tid : String) :
    Except DriverErr Unit × TaskStore :=
  match storeGet store tid with
  | none => (.error .taskNotFound, store)
  | some h =>
    if env.shutdownFails then
      (if h.pluginExited then .ok () else .error .shutdownFailed, store)
    else (.ok (), store)

/-- `Driver.DestroyTask`: unknown task IDs get `ErrTaskNotFound`; a running
task without `force` is refused; otherwise the task is removed from the
store. -/
def destroyTask (store : TaskStore) (tid : String) (force : Bool) :
    Except DriverErr Unit × TaskStore :=
  match storeGet store tid with
  | none => (.error .taskNotFound, store)
  | some h =>
    if h.running && !force then (.error .cannotDestroyRunning, store)
    else (.ok (), storeDelete store tid)

/-- `Driver.InspectTask`: unknown task IDs get `ErrTaskNotFound`; otherwise
the handle's status is returned.  The store is never modified. -/
def inspectTask (store : TaskStore) (tid : String) :
    Except DriverErr Unit × TaskStore :=
  match storeGet store tid with
  | none => (.error .taskNotFound, store)
  | some _ => (.ok (), store)

/-- `Driver.TaskStats`: unknown task IDs get `ErrTaskNotFound`; otherwise
the executor's stats stream is returned.  The store is never modified. -/
def taskStats (store : TaskStore) (env : ExecEnv) (tid : String) :
    Except DriverErr Unit × TaskStore :=
  match storeGet store tid with
  | none => (.error .taskNotFound, store)
  | some _ => (if env.statsFails then .error .statsFailed else .ok (), store)

/-- `Driver.SignalTask`: unknown task IDs get `ErrTaskNotFound`; otherwise
the signal is forwarded to the executor.  The store is never modified. -/
def signalTask (store : TaskStore) (env : ExecEnv) (tid : String) :
    Except DriverErr Unit × TaskStore :=
  match storeGet store tid with
  | none => (.error .taskNotFound, store)
  | some _ => (if env.signalFails then .error .signalFailed else .ok (), store)

/-- Result of `Driver.StartTask`: the call's outcome, the updated store, and
whether an executor plugin was created along the way. -/
structure StartResult where
  result : Except DriverErr Unit
  store : TaskStore
  executorCreated : Bool
deriving Repr

/-- The handle `StartTask` installs on success (`procState` running). -/
def startedHandle : TaskHandle :=
  { running := true, pluginExited := false }

/-- `Driver.StartTask`: refuses a task ID already present in the store
before doing anything else; then decodes the driver config, creates an
executor, launches the command, persists the driver state, and only on full
success installs the handle in the store. -/
def startTask (store : TaskStore) (env : ExecEnv) (tid : String) : StartResult :=
  if (storeGet store tid).isSome then
    { result := .error .alreadyStarted, store := store, executorCreated := false }
  else if env.decodeFails then
    { result := .error .decodeConfigFailed, store := store, executorCreated := false }
  else if env.createFails then
    { result := .error .createExecutorFailed, store := store, executorCreated := false }
  else if env.launchFails then
    { result := .error .launchFailed, store := store, executorCreated := true }
  else if env.setStateFails then
    { result := .error .setDriverStateFailed, store := store, executorCreated := true }
  else
    { result := .ok (), store := storeSet store tid startedHandle, executorCreated := true }

/-! ## Concrete fixtures (mirroring the repository's tests) -/

/-- The node table of `TestAllocSet_filterByTainted`: a draining node, a
down node, a `nil` (unresolved) entry, and a ready node. -/
def testNodes : NodeTable :=
  [("draining", some { id := "draining", status := .ready, draining := true }),
   ("lost", some { id := "lost", status := .down, draining := false }),
   ("nil", none),
   ("normal", some { id := "normal", status := .ready, draining := false })]

/-- A run-desired allocation with the given ID, node, client status and
migrate intent, as built by `TestAllocSet_filterByTainted`. -/
def mkA (i nid : String) (c : ClientStatus) (m : Bool) : Alloc :=
  { id := i, nameIndex := 0, nodeID := nid, clientStatus := c,
    desiredStatus := .run, migrate := m, taskStates := [] }

/-- The allocation set of `TestAllocSet_filterByTainted`. -/
def testAllocs : List Alloc :=
  [mkA "migrating1" "draining" .running true,
   mkA "migrating2" "nil" .running true,
   mkA "untainted1" "normal" .running false,
   mkA "untainted2" "normal" .complete false,
   mkA "untainted3" "draining" .complete false,
   mkA "untainted4" "lost" .complete false,
   mkA "lost1" "lost" .pending false,
   mkA "lost2" "lost" .running false]

/-- The allocation of `TestBitmapFrom`: name `foo.bar[8]`, index 8. -/
def idx8Alloc : Alloc :=
  { id := "8", nameIndex := 8, nodeID := "n", clientStatus := .pending,
    desiredStatus := .run, migrate := false, taskStates := [] }

/-- `s` is the smallest number that is simultaneously a multiple of 8, a
power of two, and at least `target`. -/
def minimalAlignedPow2 (target s : Nat) : Prop :=
  s % 8 = 0 ∧ (∃ j, s = 2 ^ j) ∧ target ≤ s ∧
    ∀ n, n % 8 = 0 → (∃ j, n = 2 ^ j) → target ≤ n → s ≤ n

/-- A small snapshot used to witness the idempotence theorem: one running
allocation on the ready node, desired count 1. -/
def wSnap : Snapshot :=
  { isBatch := false, desired := 1,
    allocs := [mkA "u1" "normal" .running false], nodes := testNodes }

/-- A snapshot on which reconciliation is not idempotent: the desired
count is 0 but one non-terminal allocation with migration intent sits on
the draining node, so applying the plan creates one replacement that the
next pass must stop. -/
def c7Snap : Snapshot :=
  { isBatch := false, desired := 0,
    allocs := [mkA "m1" "draining" .running true], nodes := testNodes }

/-- An environment in which every external collaborator succeeds. -/
def wEnv : ExecEnv :=
  { decodeFails := false, createFails := false, launchFails := false,
    setStateFails := false, shutdownFails := false, signalFails := false,
    statsFails := false }

/-! ## Validation against the repository's tests -/

-- The nine cases asserted by `TestReconcile_shouldFilter`.
example : shouldFilter (mkTestAlloc .run .running false) true = (true, false) := by decide
example : shouldFilter (mkTestAlloc .stop .running false) true = (true, false) := by decide
example : shouldFilter (mkTestAlloc .stop .complete true) true = (false, true) := by decide
example : shouldFilter (mkTestAlloc .evict .complete false) true = (false, true) := by decide
example : shouldFilter (mkTestAlloc .run .failed false) true = (false, false) := by decide
example : shouldFilter (mkTestAlloc .run .running false) false = (false, false) := by decide
example : shouldFilter (mkTestAlloc .stop .complete false) false = (false, true) := by decide
example : shouldFilter (mkTestAlloc .evict .complete false) false = (false, true) := by decide
example : shouldFilter (mkTestAlloc .run .complete false) false = (false, true) := by decide

-- The classification asserted by `TestAllocSet_filterByTainted`.
example :
    (filterByTainted testAllocs testNodes).1.map (·.id) =
      ["untainted1", "untainted2", "untainted3", "untainted4"] ∧
    (filterByTainted testAllocs testNodes).2.1.map (·.id) =
      ["migrating1", "migrating2"] ∧
    (filterByTainted testAllocs testNodes).2.2.map (·.id) =
      ["lost1", "lost2"] := by decide

/-! ## Claim theorems -/

/-- C1: for every terminal allocation evaluated by `shouldFilter`, the
returned `(untainted, ignore)` pair matches the spec's truth table at all
nine listed coordinates (batch flag, desired status, client status, task
failed flag), with the failed flag arbitrary where the table says "any". -/
theorem shouldFilter_truth_table :
    ∀ f : Bool,
      shouldFilter (mkTestAlloc .run .running false) true = (true, false) ∧
      shouldFilter (mkTestAlloc .stop .running false) true = (true, false) ∧
      shouldFilter (mkTestAlloc .stop .complete true) true = (false, true) ∧
      shouldFilter (mkTestAlloc .evict .complete f) true = (false, true) ∧
      shouldFilter (mkTestAlloc .run .failed f) true = (false, false) ∧
      shouldFilter (mkTestAlloc .run .running false) false = (false, false) ∧
      shouldFilter (mkTestAlloc .stop .complete false) false = (false, true) ∧
      shouldFilter (mkTestAlloc .evict .complete false) false = (false, true) ∧
      shouldFilter (mkTestAlloc .run .complete false) false = (false, true) := by
  decide

/-- Three boolean predicates of which every list element satisfies exactly
one split the list's length across the three filters. -/
theorem length_filter_three {α : Type} (p q r : α → Bool) :
    ∀ l : List α,
      (∀ a ∈ l, (p a = true ∧ q a = false ∧ r a = false) ∨
                (p a = false ∧ q a = true ∧ r a = false) ∨
                (p a = false ∧ q a = false ∧ r a = true)) →
      (l.filter p).length + (l.filter q).length + (l.filter r).length = l.length := by
  intro l
  induction l with
  | nil => intro _; simp
  | cons a t ih =>
    intro h
    have ht := ih (fun x hx => h x (List.mem_cons_of_mem a hx))
    rcases h a (List.mem_cons_self a t) with ⟨h1, h2, h3⟩ | ⟨h1, h2, h3⟩ | ⟨h1, h2, h3⟩ <;>
      simp [List.filter_cons, h1, h2, h3] <;> omega

/-- C2: `filterByTainted` partitions its input exactly: the three output
set sizes sum to the input size, every input allocation is in some output
set and conversely, and no allocation is in two output sets. -/
theorem filterByTainted_exact_partition (allocs : List Alloc) (nodes : NodeTable) :
    ((filterByTainted allocs nodes).1.length + (filterByTainted allocs nodes).2.1.length +
        (filterByTainted allocs nodes).2.2.length = allocs.length) ∧
    ∀ a : Alloc,
      (a ∈ allocs ↔ a ∈ (filterByTainted allocs nodes).1 ∨
          a ∈ (filterByTainted allocs nodes).2.1 ∨ a ∈ (filterByTainted allocs nodes).2.2) ∧
      ¬(a ∈ (filterByTainted allocs nodes).1 ∧ a ∈ (filterByTainted allocs nodes).2.1) ∧
      ¬(a ∈ (filterByTainted allocs nodes).1 ∧ a ∈ (filterByTainted allocs nodes).2.2) ∧
      ¬(a ∈ (filterByTainted allocs nodes).2.1 ∧ a ∈ (filterByTainted allocs nodes).2.2) := by
  simp only [filterByTainted]
  constructor
  · apply length_filter_three
    intro a _
    cases h : classifyAlloc nodes a <;> simp [h]
  · intro a
    refine ⟨⟨fun ha => ?_, fun h => ?_⟩, ?_, ?_, ?_⟩
    · cases h : classifyAlloc nodes a
      · exact Or.inl (List.mem_filter.mpr ⟨ha, by simp [h]⟩)
      · exact Or.inr (Or.inl (List.mem_filter.mpr ⟨ha, by simp [h]⟩))
      · exact Or.inr (Or.inr (List.mem_filter.mpr ⟨ha, by simp [h]⟩))
    · rcases h with h | h | h <;> exact (List.mem_filter.mp h).1
    · rintro ⟨h1, h2⟩
      have e1 := (List.mem_filter.mp h1).2
      have e2 := (List.mem_filter.mp h2).2
      simp at e1 e2
      rw [e1] at e2
      exact absurd e2 (by decide)
    · rintro ⟨h1, h2⟩
      have e1 := (List.mem_filter.mp h1).2
      have e2 := (List.mem_filter.mp h2).2
      simp at e1 e2
      rw [e1] at e2
      exact absurd e2 (by decide)
    · rintro ⟨h1, h2⟩
      have e1 := (List.mem_filter.mp h1).2
      have e2 := (List.mem_filter.mp h2).2
      simp at e1 e2
      rw [e1] at e2
      exact absurd e2 (by decide)

/-- The ceiling base-2 logarithm of 9 is 4 (so `nextPow2 9 = 16`). -/
theorem clog_two_nine : Nat.clog 2 9 = 4 := by
  have h1 : Nat.clog 2 9 ≤ 4 :=
    (Nat.le_pow_iff_clog_le (by norm_num)).mp (by norm_num)
  have h2 : ¬Nat.clog 2 9 ≤ 3 := by
    intro h
    have := (Nat.le_pow_iff_clog_le (b := 2) (by norm_num)).mpr h
    norm_num at this
  omega

/-- C3: the bitmap produced by `bitmapFrom` has the smallest size that is a
multiple of 8, a power of two, and at least `max (k+1) m` where `k` is the
highest embedded index and `m` the minimum count; in particular the
`TestBitmapFrom` allocation (index 8) yields size 16 for minimum counts 1
and 8. -/
theorem bitmapFrom_size_minimal (allocs : List Alloc) (k m : Nat)
    (hk : highestIndex allocs = k) :
    minimalAlignedPow2 (max (k + 1) m) (bitmapFrom allocs m).size ∧
    (bitmapFrom [idx8Alloc] 1).size = 16 ∧ (bitmapFrom [idx8Alloc] 8).size = 16 := by
  have hconc : ∀ m' : Nat, m' ≤ 8 → (bitmapFrom [idx8Alloc] m').size = 16 := by
    intro m' hm'
    have hmax : max m' (highestIndex [idx8Alloc] + 1) = 9 := by
      simp [highestIndex, idx8Alloc]
      omega
    simp [bitmapFrom, hmax, nextPow2, clog_two_nine, byteAlign]
  refine ⟨?_, hconc 1 (by norm_num), hconc 8 (by norm_num)⟩
  subst hk
  set x := max (highestIndex allocs + 1) m with hx
  have hx1 : 1 ≤ x := le_trans (Nat.succ_le_succ (Nat.zero_le _)) (le_max_left _ _)
  have hsize : (bitmapFrom allocs m).size = byteAlign (2 ^ Nat.clog 2 x) := by
    simp [bitmapFrom, nextPow2, hx, Nat.max_comm]
  have hxc : x ≤ 2 ^ Nat.clog 2 x := Nat.le_pow_clog (by norm_num) x
  by_cases hc : 3 ≤ Nat.clog 2 x
  · -- the power of two is at least 8, hence already byte-aligned
    have h8 : (8 : Nat) ∣ 2 ^ Nat.clog 2 x := by
      have := Nat.pow_dvd_pow 2 hc
      simpa using this
    have hmod : 2 ^ Nat.clog 2 x % 8 = 0 := Nat.mod_eq_zero_of_dvd h8
    rw [hsize]
    unfold byteAlign
    rw [if_pos hmod]
    refine ⟨hmod, ⟨Nat.clog 2 x, rfl⟩, hxc, ?_⟩
    intro n _ hpow hxn
    obtain ⟨j, rfl⟩ := hpow
    exact Nat.pow_le_pow_right (by norm_num)
      ((Nat.le_pow_iff_clog_le (by norm_num)).mp hxn)
  · -- the power of two is below 8, so alignment raises the size to 8
    have hc2 : Nat.clog 2 x ≤ 2 := by omega
    have hle4 : 2 ^ Nat.clog 2 x ≤ 4 := by
      calc 2 ^ Nat.clog 2 x ≤ 2 ^ 2 := Nat.pow_le_pow_right (by norm_num) hc2
      _ = 4 := by norm_num
    have halign : byteAlign (2 ^ Nat.clog 2 x) = 8 := by
      interval_cases h : Nat.clog 2 x <;> simp [byteAlign]
    rw [hsize, halign]
    refine ⟨by norm_num, ⟨3, by norm_num⟩, by omega, ?_⟩
    intro n hn8 _ hxn
    have hpos : 0 < n := lt_of_lt_of_le hx1 hxn
    exact Nat.le_of_dvd hpos (Nat.dvd_of_mod_eq_zero hn8)

/-- C4: a terminal allocation is classified untainted by the taint rule no
matter what the node table says, it always lands in `filterByTainted`'s
untainted output and never in migrate or lost, and it is never part of the
non-terminal subset the reconciler feeds to the taint classifier. -/
theorem terminal_always_untainted (nodes : NodeTable) (a : Alloc)
    (hterm : terminalStatus a = true) :
    classifyAlloc nodes a = .untainted ∧
    (∀ allocs : List Alloc, a ∈ allocs →
      a ∈ (filterByTainted allocs nodes).1 ∧
      a ∉ (filterByTainted allocs nodes).2.1 ∧
      a ∉ (filterByTainted allocs nodes).2.2) ∧
    ∀ s : Snapshot, a ∉ nontermOf s := by
  have hcl : classifyAlloc nodes a = .untainted := by simp [classifyAlloc, hterm]
  refine ⟨hcl, fun allocs ha => ?_, fun s h => ?_⟩
  · simp only [filterByTainted]
    refine ⟨List.mem_filter.mpr ⟨ha, by simp [hcl]⟩, fun h => ?_, fun h => ?_⟩
    · have := (List.mem_filter.mp h).2
      simp [hcl] at this
    · have := (List.mem_filter.mp h).2
      simp [hcl] at this
  · have := (List.mem_filter.mp h).2
    simp [hterm] at this

/-- C5: for non-terminal allocations, migration intent on a tainted node
gives `migrate` (taking precedence over loss detection), no intent on a
down node gives `lost`, and every other non-terminal allocation is
untainted. -/
theorem migrate_precedence (nodes : NodeTable) (a : Alloc)
    (hterm : terminalStatus a = false) :
    (a.migrate = true → nodeTainted nodes a.nodeID = true →
      classifyAlloc nodes a = .migrate) ∧
    (a.migrate = false → nodeDown nodes a.nodeID = true →
      classifyAlloc nodes a = .lost) ∧
    (¬(a.migrate = true ∧ nodeTainted nodes a.nodeID = true) →
      nodeDown nodes a.nodeID = false → classifyAlloc nodes a = .untainted) := by
  refine ⟨fun hm ht => ?_, fun hm hd => ?_, fun hmt hd => ?_⟩
  · simp [classifyAlloc, hterm, hm, ht]
  · rcases hl : lookupNode nodes a.nodeID with _ | n
    · simp [nodeDown, hl] at hd
    · have hdn : (n.status == NodeStatus.down) = true := by
        simpa [nodeDown, hl] using hd
      simp [classifyAlloc, hterm, hm, hl, hdn]
  · have hcond : (a.migrate && nodeTainted nodes a.nodeID) = false := by
      cases hm : a.migrate
      · simp
      · cases hnt : nodeTainted nodes a.nodeID
        · simp
        · exact absurd ⟨hm, hnt⟩ hmt
    rcases hl : lookupNode nodes a.nodeID with _ | n
    · simp [classifyAlloc, hterm, hcond, hl]
    · have hdn : (n.status == NodeStatus.down) = false := by
        simpa [nodeDown, hl] using hd
      simp [classifyAlloc, hterm, hcond, hl, hdn]

/-- C6 counterexample: a service-job allocation with desired status run and
client status running whose (only) task state is dead gets `ignore = false`
from `shouldFilter`, refuting "every terminal service allocation is
ignored" (this is the test's "service running" case). -/
theorem service_running_not_ignored :
    (mkTestAlloc .run .running false).taskStates.all (·.dead) = true ∧
    (shouldFilter (mkTestAlloc .run .running false) false).2 = false := by
  decide

/-- C6 amended: a service allocation is ignored by `shouldFilter` exactly
when its desired status is stop or evict or its client status is complete;
a run-desired allocation whose client status is not complete gets
`(untainted, ignore) = (false, false)`. -/
theorem service_terminal_ignore (a : Alloc) :
    ((a.desiredStatus = .stop ∨ a.desiredStatus = .evict ∨ a.clientStatus = .complete) →
      shouldFilter a false = (false, true)) ∧
    (a.desiredStatus = .run → a.clientStatus ≠ .complete →
      shouldFilter a false = (false, false)) := by
  constructor
  · rintro (h | h | h)
    · simp [shouldFilter, h]
    · simp [shouldFilter, h]
    · cases hd : a.desiredStatus <;> simp [shouldFilter, hd, h]
  · intro hr hc
    simp [shouldFilter, hr, hc]

/-! ### Reconciler idempotence machinery -/

/-- `shouldFilter` never returns `(true, true)`: an ignored terminal
allocation is not also kept untainted. -/
theorem shouldFilter_ignore_not_untainted (a : Alloc) (b : Bool)
    (h : (shouldFilter a b).2 = true) : (shouldFilter a b).1 = false := by
  unfold shouldFilter at h ⊢
  cases b <;> cases hd : a.desiredStatus <;>
    cases hc : a.clientStatus <;> cases hf : anyTaskFailed a <;>
      simp [hd, hc, hf] at h ⊢

/-- The applied snapshot keeps the original node table. -/
theorem applyPlan_nodes (s : Snapshot) (nid : String) :
    (applyPlan s nid).nodes = s.nodes := rfl

/-- The applied snapshot keeps the original batch flag. -/
theorem applyPlan_isBatch (s : Snapshot) (nid : String) :
    (applyPlan s nid).isBatch = s.isBatch := rfl

/-- The applied snapshot keeps the original desired count. -/
theorem applyPlan_desired (s : Snapshot) (nid : String) :
    (applyPlan s nid).desired = s.desired := rfl

/-- The allocations of the applied snapshot, spelled out. -/
theorem applyPlan_allocs (s : Snapshot) (nid : String) :
    (applyPlan s nid).allocs =
      ignOf s ++ (untTermOf s ++ untNonTermOf s).drop (currentOf s - s.desired) ++
        List.replicate (s.desired - currentOf s + (migrOf s).length) (freshAlloc nid) := rfl

/-- A freshly placed allocation is not terminal. -/
theorem terminal_fresh (nid : String) : terminalStatus (freshAlloc nid) = false := rfl

/-- A freshly placed allocation is untainted as long as its node is not
down (an unresolved or draining node without migration intent is still
untainted). -/
theorem classify_fresh (nodes : NodeTable) (nid : String)
    (hnode : nodeDown nodes nid = false) :
    classifyAlloc nodes (freshAlloc nid) = .untainted := by
  rcases hl : lookupNode nodes nid with _ | n
  · simp [classifyAlloc, freshAlloc, terminalStatus, hl]
  · have hdn : (n.status == NodeStatus.down) = false := by
      simpa [nodeDown, hl] using hnode
    simp [classifyAlloc, freshAlloc, terminalStatus, hl, hdn]

/-- Membership in the untainted-terminal subset, unpacked. -/
theorem mem_untTermOf {s : Snapshot} {a : Alloc} (h : a ∈ untTermOf s) :
    terminalStatus a = true ∧ (shouldFilter a s.isBatch).1 = true :=
  ⟨(List.mem_filter.mp (List.mem_filter.mp h).1).2, (List.mem_filter.mp h).2⟩

/-- Membership in the ignored subset, unpacked. -/
theorem mem_ignOf {s : Snapshot} {a : Alloc} (h : a ∈ ignOf s) :
    terminalStatus a = true ∧ (shouldFilter a s.isBatch).2 = true :=
  ⟨(List.mem_filter.mp (List.mem_filter.mp h).1).2, (List.mem_filter.mp h).2⟩

/-- Membership in the untainted-non-terminal subset, unpacked. -/
theorem mem_untNonTermOf {s : Snapshot} {a : Alloc} (h : a ∈ untNonTermOf s) :
    terminalStatus a = false ∧ classifyAlloc s.nodes a = .untainted := by
  have h1 := (List.mem_filter.mp (List.mem_filter.mp h).1).2
  have h2 := (List.mem_filter.mp h).2
  simp at h1 h2
  exact ⟨h1, h2⟩

/-- Two boolean predicates of which every list element satisfies exactly
one split the list's length across the two filters. -/
theorem length_filter_two {α : Type} (p q : α → Bool) :
    ∀ l : List α,
      (∀ a ∈ l, (p a = true ∧ q a = false) ∨ (p a = false ∧ q a = true)) →
      (l.filter p).length + (l.filter q).length = l.length := by
  intro l
  induction l with
  | nil => intro _; simp
  | cons a t ih =>
    intro h
    have ht := ih (fun x hx => h x (List.mem_cons_of_mem a hx))
    rcases h a (List.mem_cons_self a t) with ⟨h1, h2⟩ | ⟨h1, h2⟩ <;>
      simp [List.filter_cons, h1, h2] <;> omega

/-- Filtering a three-part concatenation whose first part satisfies
neither predicate, whose middle part satisfies exactly one, and whose last
part satisfies exactly the second, counts the middle and last parts. -/
theorem count_two_parts {α : Type} (p q : α → Bool) (l₁ l₂ l₃ : List α)
    (h1 : ∀ a ∈ l₁, p a = false ∧ q a = false)
    (h2 : ∀ a ∈ l₂, (p a = true ∧ q a = false) ∨ (p a = false ∧ q a = true))
    (h3 : ∀ a ∈ l₃, p a = false ∧ q a = true) :
    ((l₁ ++ l₂ ++ l₃).filter p).length + ((l₁ ++ l₂ ++ l₃).filter q).length =
      l₂.length + l₃.length := by
  have e1p : l₁.filter p = [] :=
    List.filter_eq_nil_iff.mpr (fun a ha => by simp [(h1 a ha).1])
  have e1q : l₁.filter q = [] :=
    List.filter_eq_nil_iff.mpr (fun a ha => by simp [(h1 a ha).2])
  have e3p : l₃.filter p = [] :=
    List.filter_eq_nil_iff.mpr (fun a ha => by simp [(h3 a ha).1])
  have e3q : l₃.filter q = l₃ :=
    List.filter_eq_self.mpr (fun a ha => (h3 a ha).2)
  have e2 := length_filter_two p q l₂ h2
  rw [List.filter_append, List.filter_append, List.filter_append, List.filter_append,
    e1p, e1q, e3p, e3q]
  simp only [List.length_append, List.length_nil]
  omega

/-- In the applied snapshot, every non-terminal allocation classifies as
untainted. -/
theorem applyPlan_nonterm_untainted (s : Snapshot) (nid : String)
    (hnode : nodeDown s.nodes nid = false) :
    ∀ a ∈ (applyPlan s nid).allocs, terminalStatus a = false →
      classifyAlloc s.nodes a = .untainted := by
  intro a ha hterm
  rw [applyPlan_allocs] at ha
  rcases List.mem_append.mp ha with hik | hf
  · rcases List.mem_append.mp hik with hi | hk
    · have ht := (mem_ignOf hi).1
      rw [hterm] at ht
      cases ht
    · have hk' := List.mem_of_mem_drop hk
      rcases List.mem_append.mp hk' with h1 | h2
      · have ht := (mem_untTermOf h1).1
        rw [hterm] at ht
        cases ht
      · exact (mem_untNonTermOf h2).2
  · have he : a = freshAlloc nid := (List.mem_replicate.mp hf).2
    subst he
    exact classify_fresh s.nodes nid hnode

/-- After the plan is applied, nothing is classified migrate. -/
theorem migrOf_applyPlan (s : Snapshot) (nid : String)
    (hnode : nodeDown s.nodes nid = false) :
    migrOf (applyPlan s nid) = [] := by
  unfold migrOf nontermOf
  rw [List.filter_filter, List.filter_eq_nil_iff]
  intro a ha
  simp only [applyPlan_nodes]
  cases ht : terminalStatus a
  · have := applyPlan_nonterm_untainted s nid hnode a ha ht
    simp [this, ht]
  · simp [ht]

/-- After the plan is applied, nothing is classified lost. -/
theorem lostOf_applyPlan (s : Snapshot) (nid : String)
    (hnode : nodeDown s.nodes nid = false) :
    lostOf (applyPlan s nid) = [] := by
  unfold lostOf nontermOf
  rw [List.filter_filter, List.filter_eq_nil_iff]
  intro a ha
  simp only [applyPlan_nodes]
  cases ht : terminalStatus a
  · have := applyPlan_nonterm_untainted s nid hnode a ha ht
    simp [this, ht]
  · simp [ht]

/-- After the plan is applied, the current count is exactly the desired
count (as long as the migrating allocations did not already exceed it). -/
theorem currentOf_applyPlan (s : Snapshot) (nid : String)
    (hnode : nodeDown s.nodes nid = false)
    (hmigr : (migrOf s).length ≤ s.desired) :
    currentOf (applyPlan s nid) = s.desired := by
  unfold currentOf
  rw [migrOf_applyPlan s nid hnode]
  simp only [List.length_nil, Nat.add_zero]
  unfold untTermOf untNonTermOf termOf nontermOf
  rw [List.filter_filter, List.filter_filter]
  simp only [applyPlan_allocs, applyPlan_isBatch, applyPlan_nodes]
  rw [count_two_parts
      (fun a => (shouldFilter a s.isBatch).1 && terminalStatus a)
      (fun a => (classifyAlloc s.nodes a == TaintClass.untainted) && !terminalStatus a)
      _ _ _
      (fun a ha => ?_) (fun a ha => ?_) (fun a ha => ?_)]
  · have hlen : ((untTermOf s ++ untNonTermOf s).drop (currentOf s - s.desired)).length =
        (untTermOf s).length + (untNonTermOf s).length - (currentOf s - s.desired) := by
      rw [List.length_drop, List.length_append]
    rw [hlen, List.length_replicate]
    have hcur : currentOf s =
        (untTermOf s).length + (untNonTermOf s).length + (migrOf s).length := rfl
    omega
  · -- ignored allocations: terminal but not untainted, not non-terminal
    have h := mem_ignOf ha
    have h1 := shouldFilter_ignore_not_untainted a s.isBatch h.2
    simp [h1, h.1]
  · -- kept allocations: exactly one of the two predicates
    have hk := List.mem_of_mem_drop ha
    rcases List.mem_append.mp hk with h1 | h2
    · have h := mem_untTermOf h1
      exact Or.inl (by simp [h.1, h.2])
    · have h := mem_untNonTermOf h2
      exact Or.inr (by simp [h.1, h.2])
  · -- fresh allocations: non-terminal and untainted
    have he : a = freshAlloc nid := (List.mem_replicate.mp ha).2
    subst he
    simp [terminal_fresh, classify_fresh s.nodes nid hnode]

/-- C7 counterexample: reconciliation is not idempotent on every
plan-reflected snapshot.  With desired count 0 and a single migrating
allocation, the applied plan (its migrate replacement placed on the ready
node, which is not down) leaves one fresh running allocation, and the
second pass emits a stop for it: the plan is not empty.  The migrating set
(size 1) exceeded the desired count (0). -/
theorem reconcile_not_idempotent :
    (migrOf c7Snap).length = 1 ∧ c7Snap.desired = 0 ∧
    nodeDown c7Snap.nodes "normal" = false ∧
    (reconcile (applyPlan c7Snap "normal")).stop = ["fresh"] := by
  decide

/-- C7 amended: the Reconciler is idempotent whenever the snapshot's
migrating set does not exceed the desired count: once such a plan's
allocations are reflected in the snapshot (stop victims gone, placements
and migrate replacements running on a healthy node, ignored allocations
untouched), reconciling again yields an empty plan: no placements, no
stops, no migrations, and no lost replacements. -/
theorem reconcile_idempotent (s : Snapshot) (nid : String)
    (hmigr : (migrOf s).length ≤ s.desired)
    (hnode : nodeDown s.nodes nid = false) :
    (reconcile (applyPlan s nid)).place = 0 ∧
    (reconcile (applyPlan s nid)).stop = [] ∧
    (reconcile (applyPlan s nid)).migrate = [] ∧
    (reconcile (applyPlan s nid)).lostReplace = [] := by
  have hcur := currentOf_applyPlan s nid hnode hmigr
  have hmig := migrOf_applyPlan s nid hnode
  have hlost := lostOf_applyPlan s nid hnode
  refine ⟨?_, ?_, ?_, ?_⟩
  · simp [reconcile, hcur, applyPlan_desired]
  · simp [reconcile, hcur, applyPlan_desired]
  · simp [reconcile, hmig]
  · simp [reconcile, hlost]

/-! ### Exec driver theorems -/

/-- Looking up a key just set returns the new handle. -/
theorem storeGet_storeSet (s : TaskStore) (tid : String) (h : TaskHandle) :
    storeGet (storeSet s tid h) tid = some h := by
  simp [storeSet, storeGet]

/-- C8: every task-store operation of the driver returns `ErrTaskNotFound`
on a task ID absent from the store, and leaves the store unchanged. -/
theorem unknown_task_not_found (store : TaskStore) (env : ExecEnv)
    (tid : String) (force : Bool) (h : storeGet store tid = none) :
    waitTask store tid = (.error .taskNotFound, store) ∧
    stopTask store env tid = (.error .taskNotFound, store) ∧
    destroyTask store tid force = (.error .taskNotFound, store) ∧
    inspectTask store tid = (.error .taskNotFound, store) ∧
    taskStats store env tid = (.error .taskNotFound, store) ∧
    signalTask store env tid = (.error .taskNotFound, store) := by
  simp [waitTask, stopTask, destroyTask, inspectTask, taskStats, signalTask, h]

/-- C9: `DestroyTask` with `force = false` on a running task errors and
leaves the task in the store; the task is removed exactly when it is not
running or `force` is set. -/
theorem destroyTask_running_guard (store : TaskStore) (tid : String)
    (h : TaskHandle) (force : Bool) (hget : storeGet store tid = some h) :
    (h.running = true →
      destroyTask store tid false = (.error .cannotDestroyRunning, store) ∧
      storeGet (destroyTask store tid false).2 tid = some h) ∧
    (h.running = false ∨ force = true →
      destroyTask store tid force = (.ok (), storeDelete store tid)) := by
  constructor
  · intro hrun
    have : destroyTask store tid false = (.error .cannotDestroyRunning, store) := by
      simp [destroyTask, hget, hrun]
    exact ⟨this, by rw [this]; exact hget⟩
  · rintro (hrun | hforce)
    · simp [destroyTask, hget, hrun]
    · simp [destroyTask, hget, hforce]

/-- C10: `StartTask` is not re-entrant per task ID: a task ID already in
the store is refused without creating an executor or touching the store,
and two successive `StartTask` calls on the same ID cannot both succeed. -/
theorem startTask_not_reentrant (store : TaskStore) (env env' : ExecEnv)
    (tid : String) :
    ((storeGet store tid).isSome = true →
      startTask store env tid =
        { result := .error .alreadyStarted, store := store, executorCreated := false }) ∧
    ((startTask store env tid).result = .ok () →
      (startTask (startTask store env tid).store env' tid).result =
        .error .alreadyStarted) := by
  constructor
  · intro h
    simp [startTask, h]
  · intro hok
    cases hs : (storeGet store tid).isSome with
    | true => simp [startTask, hs] at hok
    | false =>
      cases hd : env.decodeFails with
      | true => simp [startTask, hs, hd] at hok
      | false =>
        cases hc : env.createFails with
        | true => simp [startTask, hs, hd, hc] at hok
        | false =>
          cases hl : env.launchFails with
          | true => simp [startTask, hs, hd, hc, hl] at hok
          | false =>
            cases hst : env.setStateFails with
            | true => simp [startTask, hs, hd, hc, hl, hst] at hok
            | false =>
              -- the first call succeeded and installed the handle
              have hstore : (startTask store env tid).store =
                  storeSet store tid startedHandle := by
                simp [startTask, hs, hd, hc, hl, hst]
              rw [hstore]
              have hsome : (storeGet (storeSet store tid startedHandle) tid).isSome = true := by
                rw [storeGet_storeSet]
                rfl
              simp [startTask, hsome]

/-! ### Witnesses -/

/-- Witness for C1: the truth table instantiated at an arbitrary failed
flag, batch evict row. -/
theorem shouldFilter_truth_table_witness :
    shouldFilter (mkTestAlloc .evict .complete true) true = (false, true) :=
  (shouldFilter_truth_table true).2.2.2.1

/-- Witness for C2: the partition sizes on the test fixture. -/
theorem filterByTainted_exact_partition_witness :
    (filterByTainted testAllocs testNodes).1.length +
      (filterByTainted testAllocs testNodes).2.1.length +
      (filterByTainted testAllocs testNodes).2.2.length = testAllocs.length :=
  (filterByTainted_exact_partition testAllocs testNodes).1

/-- Witness for C3: the minimality statement at the test's allocation of
index 8 with minimum count 1. -/
theorem bitmapFrom_size_minimal_witness :
    minimalAlignedPow2 (max (8 + 1) 1) (bitmapFrom [idx8Alloc] 1).size ∧
    (bitmapFrom [idx8Alloc] 1).size = 16 ∧ (bitmapFrom [idx8Alloc] 8).size = 16 :=
  bitmapFrom_size_minimal [idx8Alloc] 8 1 (by decide)

/-- Witness for C4: the terminal allocation on a down node from the taint
test is classified untainted. -/
theorem terminal_always_untainted_witness :
    classifyAlloc testNodes (mkA "untainted4" "lost" .complete false) = .untainted :=
  (terminal_always_untainted testNodes (mkA "untainted4" "lost" .complete false)
    (by decide)).1

/-- Witness for C5: the migrating allocation on the draining node from the
taint test is classified migrate. -/
theorem migrate_precedence_witness :
    classifyAlloc testNodes (mkA "migrating1" "draining" .running true) = .migrate :=
  (migrate_precedence testNodes (mkA "migrating1" "draining" .running true)
    (by decide)).1 (by decide) (by decide)

/-- Witness for C6 (amended): a stopped service allocation is ignored. -/
theorem service_terminal_ignore_witness :
    shouldFilter (mkTestAlloc .stop .complete false) false = (false, true) :=
  (service_terminal_ignore (mkTestAlloc .stop .complete false)).1 (Or.inl rfl)

/-- Witness for C7: applying the plan of the one-allocation snapshot and
reconciling again yields the empty plan. -/
theorem reconcile_idempotent_witness :
    (migrOf wSnap).length ≤ wSnap.desired ∧
    nodeDown wSnap.nodes "normal" = false ∧
    ((reconcile (applyPlan wSnap "normal")).place = 0 ∧
      (reconcile (applyPlan wSnap "normal")).stop = [] ∧
      (reconcile (applyPlan wSnap "normal")).migrate = [] ∧
      (reconcile (applyPlan wSnap "normal")).lostReplace = []) :=
  ⟨by decide, by decide, reconcile_idempotent wSnap "normal" (by decide) (by decide)⟩

/-- Witness for C8: all six operations on the empty store and task ID
`"t"`. -/
theorem unknown_task_not_found_witness :
    storeGet ([] : TaskStore) "t" = none ∧
    (waitTask [] "t" = (.error .taskNotFound, []) ∧
     stopTask [] wEnv "t" = (.error .taskNotFound, []) ∧
     destroyTask [] "t" false = (.error .taskNotFound, []) ∧
     inspectTask [] "t" = (.error .taskNotFound, []) ∧
     taskStats [] wEnv "t" = (.error .taskNotFound, []) ∧
     signalTask [] wEnv "t" = (.error .taskNotFound, [])) :=
  ⟨rfl, unknown_task_not_found [] wEnv "t" false rfl⟩

/-- Witness for C9: destroying a running task without force is refused and
the task stays in the store. -/
theorem destroyTask_running_guard_witness :
    destroyTask [("t", startedHandle)] "t" false =
      (.error .cannotDestroyRunning, [("t", startedHandle)]) ∧
    storeGet (destroyTask [("t", startedHandle)] "t" false).2 "t" =
      some startedHandle :=
  (destroyTask_running_guard [("t", startedHandle)] "t" startedHandle false
    (by decide)).1 rfl

/-- Witness for C10: a second `StartTask` with the same ID after a
successful first call is refused. -/
theorem startTask_not_reentrant_witness :
    (startTask (startTask [] wEnv "t").store wEnv "t").result =
      .error .alreadyStarted :=
  (startTask_not_reentrant [] wEnv wEnv "t").2 rfl

end Nomad

